import Mathlib

/-
Verification of the volume-orientation core of the FlyBrain-Template-ID
pipeline.

The development shallowly embeds the Python sources:
  * `apply_rotation.py`   — `apply_rotations`, `update_voxel_sizes_after_rotation`
                            and the file-handling part of `main`;
  * `get_image_data.py`   — `_extract_voxel_sizes`, `save_to_orientations`,
                            `check_orientation`;
  * `convert_tiff_to_nrrd.py` — `_extract_voxel_sizes`.

Modelling conventions:
  * numpy arrays become flat row-major `List Int` with explicit shapes;
    `np.rot90(m, k, axes)` is the k-fold exact 90-degree rotation primitive;
  * Python floats become `ℚ` (the embedded comparisons are exact);
  * JSON objects become association lists with first-key lookup, JSON leaf
    values become the `JFlat` type;
  * Python exceptions become `Except PyErr`; a `try/except` block is embedded
    by threading the partially assigned state to the handler;
  * the file system visible to `apply_rotation.main` becomes an association
    list of file names to structured TIFF contents.
-/

namespace FlyBrain

/-! ## 3D volumes and the np.rot90 primitive -/

/-- A 3D array, axes `[0, 1, 2]` (the Python layout is `[Z, Height, Width]`),
stored flat in row-major order. -/
structure Vol where
  s0 : Nat
  s1 : Nat
  s2 : Nat
  cells : List Int

deriving instance DecidableEq for Vol

/-- Element access `v[i, j, k]` (0 outside bounds; every construction below
stays in bounds). -/
def Vol.at3 (v : Vol) (i j k : Nat) : Int :=
  v.cells.getD (i * (v.s1 * v.s2) + j * v.s2 + k) 0

/-- Build a volume of the given shape from an index function. -/
def mkVol (s0 s1 s2 : Nat) (f : Nat → Nat → Nat → Int) : Vol :=
  ⟨s0, s1, s2,
    (List.range s0).flatMap fun i =>
      (List.range s1).flatMap fun j =>
        (List.range s2).map fun k => f i j k⟩

/-- The three rotation axes of a request (`x`, `y`, `z` keys of the JSON). -/
inductive Axis where
  | x
  | y
  | z

deriving instance DecidableEq for Axis

/-- `np.rot90(m, 1, axes=(0,1))`: shape `(s0,s1,s2) ↦ (s1,s0,s2)` and
`result[i,j,k] = m[j, s1-1-i, k]`. -/
def rot01 (v : Vol) : Vol :=
  mkVol v.s1 v.s0 v.s2 fun i j k => v.at3 j (v.s1 - 1 - i) k

/-- `np.rot90(m, 1, axes=(0,2))`: shape `(s0,s1,s2) ↦ (s2,s1,s0)` and
`result[i,j,k] = m[k, j, s2-1-i]`. -/
def rot02 (v : Vol) : Vol :=
  mkVol v.s2 v.s1 v.s0 fun i j k => v.at3 k j (v.s2 - 1 - i)

/-- `np.rot90(m, 1, axes=(1,2))`: shape `(s0,s1,s2) ↦ (s0,s2,s1)` and
`result[i,j,k] = m[i, k, s2-1-j]`. -/
def rot12 (v : Vol) : Vol :=
  mkVol v.s0 v.s2 v.s1 fun i j k => v.at3 i k (v.s2 - 1 - j)

/-- `apply_rotation.axis_mapping`: the plane rotated about each axis —
`x ↦ (0, 1)`, `y ↦ (0, 2)`, `z ↦ (1, 2)`. -/
def axisPlanePair : Axis → Nat × Nat
  | .x => (0, 1)
  | .y => (0, 2)
  | .z => (1, 2)

/-- One 90-degree rotation in the plane belonging to the given axis. -/
def rotPlane (a : Axis) (v : Vol) : Vol :=
  match a with
  | .x => rot01 v
  | .y => rot02 v
  | .z => rot12 v

/-- `f` applied `k` times. -/
def iterApply (f : α → α) : Nat → α → α
  | 0, v => v
  | Nat.succ n, v => iterApply f n (f v)

/-- The Python exceptions raised (or modelled) by the embedded code. -/
inductive PyErr where
  | valueError
  | typeError
  | indexError
  | fileNotFound
  | attributeError
  | writeError

deriving instance DecidableEq for PyErr

/-- One iteration of the loop in `apply_rotation.apply_rotations`:
`degrees == 0` is skipped, a value outside {0, 90, 180, 270} raises
`ValueError`, otherwise `np.rot90` is applied `degrees // 90` times in the
axis plane. -/
def rotStep (rotated : Vol) (ad : Axis × Int) : Except PyErr Vol :=
  if ad.2 = 0 then .ok rotated
  else if ad.2 ∈ ([0, 90, 180, 270] : List Int) then
    .ok (iterApply (rotPlane ad.1) (ad.2 / 90).toNat rotated)
  else .error .valueError

/-- `apply_rotation.apply_rotations`: fold the steps over the request in its
listed order (Python `dict.items()` iterates in insertion order, which is the
key order of the JSON request). -/
def apply_rotations (data : Vol) (rotations : List (Axis × Int)) : Except PyErr Vol :=
  rotations.foldlM rotStep data

/-- Shape of a volume as the list `[s0, s1, s2]`. -/
def Vol.shape (v : Vol) : List Nat := [v.s0, v.s1, v.s2]

/-- Swap the entries at positions `i` and `j` of a list (identity when either
index is out of range; the embedded code only swaps in range). -/
def listSwap (l : List α) (i j : Nat) : List α :=
  match l.get? i, l.get? j with
  | some a, some b => (l.set i b).set j a
  | _, _ => l

/-- One step of the axis-permutation loop of
`apply_rotation.update_voxel_sizes_after_rotation`: 0 degrees is skipped,
amounts outside {90, 180, 270} are silently skipped, and otherwise the two
positions of the axis plane are swapped once per 90 degrees.  Generic in the
element type, because the same fold describes both the permutation
bookkeeping of the source and the shape of the rotated data. -/
def posSwapStep (l : List α) (ad : Axis × Int) : List α :=
  if ad.2 = 0 then l
  else if ad.2 ∈ ([90, 180, 270] : List Int) then
    iterApply (fun p => listSwap p (axisPlanePair ad.1).1 (axisPlanePair ad.1).2)
      (ad.2 / 90).toNat l
  else l

/-- The final `current_permutation` computed by
`update_voxel_sizes_after_rotation` (it starts from `[0, 1, 2]`). -/
def spacingPerm (rotations : List (Axis × Int)) : List Nat :=
  rotations.foldl posSwapStep [0, 1, 2]

/-! ## JSON-like stores (orientations.json) -/

/-- JSON leaf values as used by the orientation store: numbers, strings,
booleans, null, homogeneous arrays, and `blob` for values the embedded code
never inspects. -/
inductive JFlat where
  | num (q : ℚ)
  | str (s : String)
  | jbool (b : Bool)
  | jnull
  | qlist (xs : List ℚ)
  | slist (xs : List String)
  | blob (n : Nat)

deriving instance DecidableEq for JFlat

/-- A value of an orientation record: either a nested JSON object (such as
`image_info` or `manual_corrections`) or a leaf. -/
inductive JField where
  | obj (o : List (String × JFlat))
  | leaf (v : JFlat)

deriving instance DecidableEq for JField

/-- A per-image orientation record: a JSON object. -/
abbrev Entry := List (String × JField)

/-- The parsed content of `orientations.json`: image identity ↦ record. -/
abbrev Store := List (String × Entry)

/-- Python `d.get(k)` / `d[k]` on a dict modelled as an association list
(first occurrence wins). -/
def dictGet : List (String × α) → String → Option α
  | [], _ => none
  | p :: t, k => if p.1 = k then some p.2 else dictGet t k

/-- Python `d[k] = v`: replace the first binding of `k`, or append a new
binding at the end. -/
def dictSet : List (String × α) → String → α → List (String × α)
  | [], k, v => [(k, v)]
  | p :: t, k, v => if p.1 = k then (k, v) :: t else p :: dictSet t k v

/-- Python `del d[k]` (as used for removing a file from a directory). -/
def dictDel (d : List (String × α)) (k : String) : List (String × α) :=
  d.filter fun p => p.1 ≠ k

/-- `DEFAULT_VOXEL_SIZE = 0.5` (both sources); written as the reduced
fraction 1/2 (see `DEFAULT_VOXEL_SIZE_eq`). -/
def DEFAULT_VOXEL_SIZE : ℚ := Rat.mk' 1 2

/-- The default spacing triple `[0.5, 0.5, 0.5]`. -/
def defaultVoxelTriple : JFlat :=
  .qlist [DEFAULT_VOXEL_SIZE, DEFAULT_VOXEL_SIZE, DEFAULT_VOXEL_SIZE]

/-- Python truthiness of a JSON leaf value. -/
def JFlat.truthy : JFlat → Bool
  | .num q => q != 0
  | .str s => s != ""
  | .jbool b => b
  | .jnull => false
  | .qlist xs => !xs.isEmpty
  | .slist xs => !xs.isEmpty
  | .blob _ => true

/-- `get_image_data.save_to_orientations`: read-merge-write of one record.
The caller's `image_info` gets its `voxel_sizes` key overwritten by an
existing truthy, non-default stored value; then `image_info` and
`automated_analysis` are stored wholesale and every other key of the record
is kept.  A record whose `image_info` is not an object makes
`entry.get('image_info', {}).get(...)` raise `AttributeError`. -/
def save_to_orientations (store : Store) (image_path : String)
    (image_info : List (String × JFlat)) (automated_analysis : JField) :
    Except PyErr Store :=
  let entry := (dictGet store image_path).getD []
  match (dictGet entry "image_info").getD (.obj []) with
  | .leaf _ => .error .attributeError
  | .obj existing_image_info =>
    let image_info1 :=
      match dictGet existing_image_info "voxel_sizes" with
      | some v =>
        if v.truthy ∧ v ≠ defaultVoxelTriple then
          dictSet image_info "voxel_sizes" v
        else image_info
      | none => image_info
    let entry1 := dictSet entry "image_info" (.obj image_info1)
    let entry2 := dictSet entry1 "automated_analysis" automated_analysis
    .ok (dictSet store image_path entry2)

/-- `apply_rotation.update_voxel_sizes_after_rotation`: permute the recorded
spacing triple by the axis permutation derived from the request.  Missing
file, missing record, or a recorded default triple leave the store untouched;
a non-list recorded value makes the indexing raise. -/
def update_voxel_sizes_after_rotation (orientations : Option Store)
    (image_path : String) (rotations : List (Axis × Int)) :
    Except PyErr (Option Store) :=
  match orientations with
  | none => .ok none
  | some data =>
    match dictGet data image_path with
    | none => .ok (some data)
    | some entry =>
      match (dictGet entry "image_info").getD (.obj []) with
      | .leaf _ => .error .attributeError
      | .obj ii =>
        let voxel_sizes := (dictGet ii "voxel_sizes").getD defaultVoxelTriple
        if voxel_sizes = defaultVoxelTriple then .ok (some data)
        else
          let perm := spacingPerm rotations
          match voxel_sizes with
          | .qlist xs =>
            match perm.mapM (fun i => xs.get? i) with
            | some new_voxel_sizes =>
              let ii1 := dictSet ii "voxel_sizes" (.qlist new_voxel_sizes)
              let entry1 := dictSet entry "image_info" (.obj ii1)
              .ok (some (dictSet data image_path entry1))
            | none => .error .indexError
          | _ => .error .typeError

/-- The recorded spacing value of an identity, along the exact access path
of the sources (`entry['image_info']['voxel_sizes']`). -/
def storedVoxelSizes (store : Store) (path : String) : Option JFlat :=
  match dictGet store path with
  | some entry =>
    match dictGet entry "image_info" with
    | some (.obj ii) => dictGet ii "voxel_sizes"
    | _ => none
  | none => none

/-! ## Voxel-size extraction from TIFF metadata

Both `get_image_data._extract_voxel_sizes` and
`convert_tiff_to_nrrd._extract_voxel_sizes` read the same metadata sources
inside `try/except` blocks that keep partially assigned values.  A TIFF
handle is modelled by what those reads can observe: each metadata field is
absent, malformed (its conversion raises), or a value. -/

/-- A metadata field as seen through `float(...)` conversion: absent,
present but unparseable (the conversion raises), or a value. -/
inductive MetaField where
  | absent
  | malformed
  | val (q : ℚ)

deriving instance DecidableEq for MetaField

/-- A TIFF resolution tag: missing, present but not a tuple (skipped by the
`isinstance` check), or a pair `(xr[0], xr[1])` used as `xr[1] / xr[0]` when
`xr[0] > 0`. -/
inductive ResTag where
  | missing
  | nontuple
  | pair (a b : ℚ)

deriving instance DecidableEq for ResTag

/-- The ImageJ metadata block: the `spacing` key and the `unit` key
(`ij.get('unit', 'micron')`; `none` models an absent key). -/
structure IJMeta where
  spacing : MetaField
  unit : Option String

deriving instance DecidableEq for IJMeta

/-- The OME-XML metadata block: whether `ET.fromstring` raises, whether a
`Pixels` element is found, and the three `PhysicalSize*` attributes (an empty
attribute is `absent` because the sources test its truthiness first). -/
structure OMEMeta where
  parseFails : Bool
  pixelsFound : Bool
  physX : MetaField
  physY : MetaField
  physZ : MetaField

deriving instance DecidableEq for OMEMeta

/-- A TIFF handle, as observed by the two extractors:
`ijAccessFails` models `tif.imagej_metadata` raising, `pagesFail` models
`tif.pages[0].tags` raising, and `ome = none` models
`hasattr(tif, 'ome_metadata') and tif.ome_metadata` being falsy. -/
structure TifHandle where
  ijAccessFails : Bool
  ij : Option IJMeta
  pagesFail : Bool
  xres : ResTag
  yres : ResTag
  ome : Option OMEMeta

deriving instance DecidableEq for TifHandle

/-- Python `str.lower()` as applied to the metadata `unit` string, modelled
directly on the character list (the unit spellings involved are handled
exactly by per-character lowercasing). -/
def pyLower (s : String) : String := ⟨s.data.map Char.toLower⟩

/-- The micron spellings accepted by `get_image_data` (`um`, `µm`, `micron`,
`microns`, `micrometer`). -/
def micronUnits : List String := ["um", "µm", "micron", "microns", "micrometer"]

/-- The nanometer spellings accepted by both extractors. -/
def nmUnits : List String := ["nm", "nanometer", "nanometers"]

/-- The partially assigned `(vx, vy, vz)` state threaded through the
extraction blocks. -/
structure VTriple where
  vx : Option ℚ
  vy : Option ℚ
  vz : Option ℚ

deriving instance DecidableEq for VTriple

/-- `if v: v /= 1000.0` on an optional value (Python skips falsy `0.0`,
which divides to itself anyway). -/
def divTruthy : Option ℚ → Option ℚ
  | some q => if q ≠ 0 then some (q / 1000) else some q
  | none => none

/-- The resolution-tag read `vx = xr[1] / xr[0]` guarded by
`isinstance(xr, tuple) and xr[0] > 0`. -/
def resValue : ResTag → Option ℚ
  | .pair a b => if 0 < a then some (b / a) else none
  | _ => none

/-- The ImageJ `try` block of `get_image_data._extract_voxel_sizes`
(lines 47-73): `spacing` → `vz`, page resolution tags → `vx`, `vy`, then the
`unit` normalisation with an explicit micron pass-branch.  A raise at any
step keeps the values assigned so far (`except Exception: pass`). -/
def gidIJBlock (t : TifHandle) : VTriple :=
  if t.ijAccessFails then ⟨none, none, none⟩
  else
    match t.ij with
    | none => ⟨none, none, none⟩
    | some ij =>
      match ij.spacing with
      | .malformed => ⟨none, none, none⟩
      | sp =>
        let vz : Option ℚ := match sp with | .val q => some q | _ => none
        if t.pagesFail then ⟨none, none, vz⟩
        else
          let vx := resValue t.xres
          let vy := resValue t.yres
          let u := ij.unit.getD "micron"
          if u ≠ "" ∧ pyLower u ∈ micronUnits then ⟨vx, vy, vz⟩
          else if u ≠ "" ∧ pyLower u ∈ nmUnits then
            ⟨divTruthy vx, divTruthy vy, divTruthy vz⟩
          else ⟨vx, vy, vz⟩

/-- The ImageJ `try` block of `convert_tiff_to_nrrd._extract_voxel_sizes`
(lines 41-64); identical to the `get_image_data` block except that the unit
normalisation only tests for the nanometer spellings. -/
def ctnIJBlock (t : TifHandle) : VTriple :=
  if t.ijAccessFails then ⟨none, none, none⟩
  else
    match t.ij with
    | none => ⟨none, none, none⟩
    | some ij =>
      match ij.spacing with
      | .malformed => ⟨none, none, none⟩
      | sp =>
        let vz : Option ℚ := match sp with | .val q => some q | _ => none
        if t.pagesFail then ⟨none, none, vz⟩
        else
          let vx := resValue t.xres
          let vy := resValue t.yres
          let u := ij.unit.getD "micron"
          if u ≠ "" ∧ pyLower u ∈ nmUnits then
            ⟨divTruthy vx, divTruthy vy, divTruthy vz⟩
          else ⟨vx, vy, vz⟩

/-- The OME fallback block of `get_image_data._extract_voxel_sizes`
(lines 76-91), run only when `vx is None`; a malformed attribute aborts the
block and keeps the values assigned so far. -/
def gidOMEBlock (t : TifHandle) (v : VTriple) : VTriple :=
  if v.vx.isSome then v
  else
    match t.ome with
    | none => v
    | some o =>
      if o.parseFails then v
      else if !o.pixelsFound then v
      else
        match o.physX with
        | .malformed => v
        | px =>
          let v1 : VTriple :=
            ⟨(match px with | .val q => some q | _ => v.vx), v.vy, v.vz⟩
          match o.physY with
          | .malformed => v1
          | py =>
            let v2 : VTriple :=
              ⟨v1.vx, (match py with | .val q => some q | _ => v1.vy), v1.vz⟩
            match o.physZ with
            | .malformed => v2
            | pz => ⟨v2.vx, v2.vy, (match pz with | .val q => some q | _ => v2.vz)⟩

/-- The OME fallback block of `convert_tiff_to_nrrd._extract_voxel_sizes`
(lines 67-82); textually identical to the `get_image_data` block. -/
def ctnOMEBlock (t : TifHandle) (v : VTriple) : VTriple :=
  if v.vx.isSome then v
  else
    match t.ome with
    | none => v
    | some o =>
      if o.parseFails then v
      else if !o.pixelsFound then v
      else
        match o.physX with
        | .malformed => v
        | px =>
          let v1 : VTriple :=
            ⟨(match px with | .val q => some q | _ => v.vx), v.vy, v.vz⟩
          match o.physY with
          | .malformed => v1
          | py =>
            let v2 : VTriple :=
              ⟨v1.vx, (match py with | .val q => some q | _ => v1.vy), v1.vz⟩
            match o.physZ with
            | .malformed => v2
            | pz => ⟨v2.vx, v2.vy, (match pz with | .val q => some q | _ => v2.vz)⟩

/-- `get_image_data._extract_voxel_sizes`: total, returns `[vz, vy, vx]`
with defaults `vx = 0.5`, `vy = vx`, `vz = 0.5`. -/
def gid_extract_voxel_sizes (t : TifHandle) : List ℚ :=
  let v := gidOMEBlock t (gidIJBlock t)
  let vx := v.vx.getD DEFAULT_VOXEL_SIZE
  let vy := v.vy.getD vx
  let vz := v.vz.getD DEFAULT_VOXEL_SIZE
  [vz, vy, vx]

/-- `convert_tiff_to_nrrd._extract_voxel_sizes`: total, returns
`[vx, vy, vz]` with the same defaults. -/
def ctn_extract_voxel_sizes (t : TifHandle) : List ℚ :=
  let v := ctnOMEBlock t (ctnIJBlock t)
  let vx := v.vx.getD DEFAULT_VOXEL_SIZE
  let vy := v.vy.getD vx
  let vz := v.vz.getD DEFAULT_VOXEL_SIZE
  [vx, vy, vz]

/-! ## Orientation comparison (get_image_data.check_orientation)

The intensity profiles are lists of integers (a filtered profile is a sum of
integer intensities; the source casts the half-sums through `np.int64`).
The findings appended to `changes` are modelled by an inductive type; the
substring tests of the `suggested_rotations` loop (`"180° Y-axis" in change`
and so on) each match exactly one constructor's message. -/

/-- The number of detected peaks per axis
(`sample_peaks[axis]['num_peaks']`). -/
structure PeakCounts where
  p0 : Nat
  p1 : Nat
  p2 : Nat

deriving instance DecidableEq for PeakCounts

/-- `num_peaks` of a given axis index. -/
def PeakCounts.axisGet (p : PeakCounts) : Nat → Nat
  | 0 => p.p0
  | 1 => p.p1
  | _ => p.p2

/-- The filtered 1D profiles of the three axes
(`sample_proj_1d[axis]['filtered']`). -/
structure ProfileSet where
  x : List Int
  y : List Int
  z : List Int

deriving instance DecidableEq for ProfileSet

/-- What `analyze_projections(template_data, template_vox)` contributes to
`check_orientation`: the per-axis template peak counts and the filtered Z
profile. -/
structure TemplateAnalysis where
  peaks : PeakCounts
  zProfile : List Int

deriving instance DecidableEq for TemplateAnalysis

/-- A suggested rotation triple `{'x': _, 'y': _, 'z': _}`. -/
structure Rot3 where
  x : Nat
  y : Nat
  z : Nat

deriving instance DecidableEq for Rot3

/-- The findings `check_orientation` can append to `changes`, one per
distinct message:
  * `tooManyPeaks a s t`  — "Axis a: too many peaks (s vs template t) - possible axis swap"
  * `tooFewPeaks a s t`   — "Axis a: too few peaks (s vs template t) - possible clipping or wrong template"
  * `yAxisFlip`           — "180° Y-axis rotation suggested (anterior-posterior flip)"
  * `xAxisAsym`           — "X-axis highly asymmetric - possible 90° rotation needed"
  * `zProfileFlip`        — "Z-axis (dorsal-ventral) profile appears flipped vs template - 180° X-axis rotation suggested"
  * `templateNotLoaded`   — "Template not loaded" -/
inductive Finding where
  | templateNotLoaded
  | tooManyPeaks (axis s t : Nat)
  | tooFewPeaks (axis s t : Nat)
  | yAxisFlip
  | xAxisAsym
  | zProfileFlip

deriving instance DecidableEq for Finding

/-- `center_idx = len(prof) // 2`; the two half-sums of a profile. -/
def halfSums (prof : List Int) : Int × Int :=
  let c := prof.length / 2
  ((prof.take c).sum, (prof.drop c).sum)

/-- Prefix test on the character lists: Python `str.startswith`. -/
def startsWithChars : List Char → List Char → Bool
  | [], _ => true
  | _ :: _, [] => false
  | p :: ps, c :: cs => p == c && startsWithChars ps cs

/-- `template_key.startswith(pre)`. -/
def pyStartswith (s pre : String) : Bool := startsWithChars pre.data s.data

/-- The peak-count ratio loop of `check_orientation` (lines 179-188): per
axis, a template with peaks gets the ratio test `> 2.0` (too many: possible
axis swap) or `< 0.3` (too few: possible clipping or wrong template). -/
def peakChanges (sample template : PeakCounts) : List Finding :=
  (List.range 3).foldl
    (fun acc axis =>
      let s := sample.axisGet axis
      let t := template.axisGet axis
      if 0 < t then
        if (2 : ℚ) < (s : ℚ) / (t : ℚ) then acc ++ [.tooManyPeaks axis s t]
        else if (s : ℚ) / (t : ℚ) < 3 / 10 then acc ++ [.tooFewPeaks axis s t]
        else acc
      else acc)
    []

/-- `get_image_data.check_orientation`.  `analyze_projections` (the
percentile/`find_peaks` analysis the source runs on the template) and the
floating-point Z-profile cross-correlation test (`np.interp`, mean-centred
normalised dot products compared with a 0.2 margin) are taken as parameters:
both compute with floats and neither is constrained by the properties proved
below, which hold for every choice.  Everything else follows the source:
peak-count ratios per axis, the Y and X asymmetry blocks (guarded by
`template_key.startswith('JRC2018U')` and a positive total), the Z-flip
block, and the derivation of `suggested_rotations` from the messages. -/
def check_orientation {T : Type} (analyze_projections : T → TemplateAnalysis)
    (zFlipTest : List Int → List Int → Bool)
    (sample_peaks : PeakCounts) (sample_proj : ProfileSet)
    (template_key : String) (template_info : Option T) :
    Bool × List Finding × Rot3 :=
  match template_info with
  | none => (false, [.templateNotLoaded], ⟨0, 0, 0⟩)
  | some tinfo =>
    let ta := analyze_projections tinfo
    let changes0 := peakChanges sample_peaks ta.peaks
    let changes1 :=
      if pyStartswith template_key "JRC2018U" then
        let fb := halfSums sample_proj.y
        let total := fb.1 + fb.2
        if 0 < total ∧ ((fb.1 : ℚ) - (fb.2 : ℚ)) / (total : ℚ) < -(3 / 20) then
          changes0 ++ [.yAxisFlip]
        else changes0
      else changes0
    let changes2 :=
      if pyStartswith template_key "JRC2018U" then
        let lr := halfSums sample_proj.x
        let total := lr.1 + lr.2
        if 0 < total ∧ 3 / 10 < |(lr.1 : ℚ) - (lr.2 : ℚ)| / (total : ℚ) then
          changes1 ++ [.xAxisAsym]
        else changes1
      else changes1
    let changes3 :=
      if pyStartswith template_key "JRC2018U" then
        if 10 < sample_proj.z.length ∧ 10 < ta.zProfile.length ∧
            zFlipTest sample_proj.z ta.zProfile then
          changes2 ++ [.zProfileFlip]
        else changes2
      else changes2
    let suggested : Rot3 :=
      { x := if Finding.zProfileFlip ∈ changes3 then 180 else 0
        y := if Finding.yAxisFlip ∈ changes3 then 180 else 0
        z := if Finding.xAxisAsym ∈ changes3 then 90 else 0 }
    (changes3.isEmpty, changes3, suggested)

/-! ## The file-system model of apply_rotation.main -/

/-- A TIFF stack: three-dimensional `[Z, Y, X]`, or four-dimensional
`[Z, C, Y, X]` stored as the list of its per-channel 3D volumes. -/
inductive Stack where
  | threeD (v : Vol)
  | fourD (channels : List Vol)

deriving instance DecidableEq for Stack

/-- The rotation part of `apply_rotation.main`: a 4D stack has each channel
rotated independently and is reassembled from the rotated channels (the
reassembled array holds exactly the rotated per-channel volumes, which the
channel list represents directly); a 3D stack is rotated as one volume. -/
def rotateStack (s : Stack) (rotations : List (Axis × Int)) : Except PyErr Stack :=
  match s with
  | .threeD v => (apply_rotations v rotations).map .threeD
  | .fourD chs => (chs.mapM fun c => apply_rotations c rotations).map .fourD

/-- The content of a TIFF file, at the granularity the embedded code reads
and writes it: the stack, the ImageJ flag, the ImageJ metadata dictionary
without its `LUTs` entry (`Ranges` is split off and merged back, a no-op),
whether a `LUTs` entry is present, and the resolution tags of the first
page. -/
structure TiffContent where
  stack : Stack
  isImagej : Bool
  ijMeta : List (String × JFlat)
  hasLUTs : Bool
  resolution : Option ((ℚ × ℚ) × (ℚ × ℚ))
  resolutionUnit : Option Nat

deriving instance DecidableEq for TiffContent

/-- The dimension-update of `apply_rotation.main` (lines 102-110), applied
only when the file is ImageJ-flagged and has metadata: `images`, `slices`
and (for 4D) `channels` are set from the rotated shape. -/
def updateIJMeta (meta : List (String × JFlat)) (rotated : Stack) :
    List (String × JFlat) :=
  match rotated with
  | .fourD chs =>
    match chs with
    | c :: _ =>
      dictSet
        (dictSet (dictSet meta "images" (.num ((c.s0 * chs.length : Nat) : ℚ)))
          "slices" (.num (c.s0 : ℚ)))
        "channels" (.num (chs.length : ℚ))
    | [] => meta
  | .threeD v =>
    dictSet (dictSet meta "images" (.num (v.s0 : ℚ))) "slices" (.num (v.s0 : ℚ))

/-- The content `tifffile.imwrite` produces from the rotated stack and the
kwargs of `apply_rotation.main`: the ImageJ flag and resolution tags are
carried over, the metadata is the updated dictionary (never the LUTs, which
`main` reads into `ij_luts` and never writes back). -/
def writtenTiff (orig : TiffContent) (rotated : Stack) : TiffContent :=
  { stack := rotated
    isImagej := orig.isImagej
    ijMeta :=
      if orig.isImagej ∧ orig.ijMeta ≠ [] then updateIJMeta orig.ijMeta rotated
      else if orig.isImagej then orig.ijMeta
      else []
    hasLUTs := false
    resolution := orig.resolution
    resolutionUnit := orig.resolutionUnit }

/-- The file left behind by `tempfile.mkstemp` before anything is written to
it. -/
def blankTiff : TiffContent :=
  ⟨.threeD ⟨0, 0, 0, []⟩, false, [], false, none, none⟩

/-- The world `apply_rotation.main` touches: the TIFF files under `Images/`
(keyed by file name) and the optional `orientations.json`. -/
structure World where
  images : List (String × TiffContent)
  orientations : Option Store

deriving instance DecidableEq for World

/-- The (fresh) temporary-file name `tempfile.mkstemp` creates next to the
target; modelled deterministically. -/
def tmpName (target : String) : String := "__tmp__" ++ target

/-- `apply_rotation.main` (without argument parsing): locate
`Images/{p}.tif` or `Images/{p}.tiff`; read it; rotate; write to a temporary
file, then `os.replace` it over the original, unlinking the temporary file
and re-raising if the write fails; finally update the recorded voxel sizes.
`imwriteFails` injects a failure of `tifffile.imwrite`.  The returned pair is
the final world and the error (if any) that reached the caller. -/
def apply_rotation_main (w : World) (image_path : String)
    (rotations : List (Axis × Int)) (imwriteFails : Bool) :
    World × Option PyErr :=
  let tifName := image_path ++ ".tif"
  let found : Option (String × TiffContent) :=
    match dictGet w.images tifName with
    | some c => some (tifName, c)
    | none =>
      match dictGet w.images (image_path ++ ".tiff") with
      | some c => some (image_path ++ ".tiff", c)
      | none => none
  match found with
  | none => (w, some .fileNotFound)
  | some (tiffFile, content) =>
    match rotateStack content.stack rotations with
    | .error e => (w, some e)
    | .ok rotated =>
      let newContent := writtenTiff content rotated
      let tmp := tmpName tiffFile
      let images1 := dictSet w.images tmp blankTiff
      if imwriteFails then
        ({ w with images := dictDel images1 tmp }, some .writeError)
      else
        let images2 := dictSet images1 tmp newContent
        let images3 := dictSet (dictDel images2 tmp) tiffFile newContent
        match update_voxel_sizes_after_rotation w.orientations image_path rotations with
        | .ok o2 => ({ images := images3, orientations := o2 }, none)
        | .error e => ({ images := images3, orientations := w.orientations }, some e)

deriving instance DecidableEq for Except

/-! ## Concrete stores and worlds used by counterexamples and witnesses -/

/-- A store with a record holding `manual_corrections` and an extra key, and
a second identity. -/
def c3Store : Store :=
  [("img",
      [("manual_corrections", .obj [("rotations", .qlist [0, 180, 0])]),
        ("approved", .leaf (.jbool true))]),
    ("other", [])]

/-- The store produced by saving `image_info = {}`,
`automated_analysis = 2` for `"img"` into `c3Store`. -/
def save3Witness : Store :=
  [("img",
      [("manual_corrections", .obj [("rotations", .qlist [0, 180, 0])]),
        ("approved", .leaf (.jbool true)),
        ("image_info", .obj []),
        ("automated_analysis", .leaf (.num 2))]),
    ("other", [])]

/-- A store whose recorded `voxel_sizes` is JSON `null`: present and
different from the default triple, but falsy. -/
def c7Store : Store :=
  [("img", [("image_info", .obj [("voxel_sizes", JFlat.jnull)])])]

/-- A store whose recorded `voxel_sizes` is exactly the default triple. -/
def c7DefaultStore : Store :=
  [("img", [("image_info", .obj [("voxel_sizes", defaultVoxelTriple)])])]

/-- A store whose recorded `voxel_sizes` is a measured, non-default
triple. -/
def c7MeasuredStore : Store :=
  [("img", [("image_info", .obj [("voxel_sizes", JFlat.qlist [1, 1, 2])])])]

/-- The record for `"img"` exactly as `get_image_data` writes it through
`save_to_orientations`: `voxel_sizes = sample_vox = [vx, vy, vz]`
(src/get_image_data.py lines 389, 464, 592), here `vx = 1`, `vy = 2`,
`vz = 3`. -/
def c1WrittenStore : Store :=
  [("img",
      [("image_info", .obj [("voxel_sizes", .qlist [1, 2, 3])]),
        ("automated_analysis", .obj [])])]

/-- `c1WrittenStore` after the `{x: 90}` spacing update: record positions
0 and 1 swapped. -/
def c1UpdatedStore : Store :=
  [("img",
      [("image_info", .obj [("voxel_sizes", .qlist [2, 1, 3])]),
        ("automated_analysis", .obj [])])]

/-- A 1 × 2 × 3 raw stack (`[Z, Y, X]` extents 1, 2, 3). -/
def c1DataVol : Vol := ⟨1, 2, 3, [1, 2, 3, 4, 5, 6]⟩

/-- A 1 × 2 × 2 volume with pairwise distinct cells. -/
def c4Vol : Vol := ⟨1, 2, 2, [1, 2, 3, 4]⟩

/-- A 2 × 2 × 2 raw stack volume for the C2 world. -/
def c2Vol : Vol := ⟨2, 2, 2, [1, 2, 3, 4, 5, 6, 7, 8]⟩

/-- A raw ImageJ TIFF with LUT metadata. -/
def c2Tiff : TiffContent :=
  { stack := .threeD c2Vol
    isImagej := true
    ijMeta := [("spacing", .num 1)]
    hasLUTs := true
    resolution := none
    resolutionUnit := none }

/-- A world holding only the raw TIFF `Images/img.tif`. -/
def c2World : World := { images := [("img.tif", c2Tiff)], orientations := none }

/-- A 2 × 2 × 2 raw stack volume for the C6 world. -/
def c6Vol : Vol := ⟨2, 2, 2, [1, 2, 3, 4, 5, 6, 7, 8]⟩

/-- A raw ImageJ TIFF with LUT metadata, for the all-zero request. -/
def c6Tiff : TiffContent :=
  { stack := .threeD c6Vol
    isImagej := true
    ijMeta := [("spacing", .num 1)]
    hasLUTs := true
    resolution := none
    resolutionUnit := none }

/-- A world holding only the raw TIFF `Images/img.tif`. -/
def c6World : World := { images := [("img.tif", c6Tiff)], orientations := none }

/-- A 2 × 2 × 2 volume for the C5 world. -/
def c5Vol : Vol := ⟨2, 2, 2, [1, 2, 3, 4, 5, 6, 7, 8]⟩

/-- A plain (non-ImageJ) TIFF for the atomic-write witness. -/
def c5Tiff : TiffContent :=
  { stack := .threeD c5Vol
    isImagej := false
    ijMeta := []
    hasLUTs := false
    resolution := none
    resolutionUnit := none }

/-- A world holding only the TIFF `Images/img.tif`. -/
def c5World : World := { images := [("img.tif", c5Tiff)], orientations := none }

/-! ## Helper lemmas -/

theorem dictGet_set_self (d : List (String × α)) (k : String) (v : α) :
    dictGet (dictSet d k v) k = some v := by
  induction d with
  | nil => simp [dictSet, dictGet]
  | cons p t ih =>
    by_cases h : p.1 = k
    · simp [dictSet, dictGet, h]
    · simp [dictSet, dictGet, h, ih]

theorem dictGet_set_ne (d : List (String × α)) (k k1 : String) (v : α)
    (h : k1 ≠ k) : dictGet (dictSet d k v) k1 = dictGet d k1 := by
  induction d with
  | nil => simp [dictSet, dictGet, Ne.symm h]
  | cons p t ih =>
    by_cases hp : p.1 = k
    · have hq : p.1 ≠ k1 := by rw [hp]; exact Ne.symm h
      simp [dictSet, dictGet, hp, hq, Ne.symm h]
    · by_cases hq : p.1 = k1
      · simp [dictSet, dictGet, hp, hq, h]
      · simp [dictSet, dictGet, hp, hq, ih]

theorem dictGet_del_self (d : List (String × α)) (k : String) :
    dictGet (dictDel d k) k = none := by
  induction d with
  | nil => rfl
  | cons p t ih =>
    by_cases h : p.1 = k
    · simpa [dictDel, List.filter_cons, h] using ih
    · simpa [dictDel, List.filter_cons, dictGet, h] using ih

theorem dictGet_del_ne (d : List (String × α)) (k k1 : String) (h : k1 ≠ k) :
    dictGet (dictDel d k) k1 = dictGet d k1 := by
  induction d with
  | nil => rfl
  | cons p t ih =>
    by_cases hp : p.1 = k
    · have hq : p.1 ≠ k1 := by rw [hp]; exact Ne.symm h
      simpa [dictDel, List.filter_cons, dictGet, hp, hq, Ne.symm h] using ih
    · by_cases hq : p.1 = k1
      · simp [dictDel, List.filter_cons, dictGet, hp, hq, h]
      · simpa [dictDel, List.filter_cons, dictGet, hp, hq] using ih

theorem listSwap_map (f : α → β) (l : List α) (i j : Nat) :
    listSwap (l.map f) i j = (listSwap l i j).map f := by
  unfold listSwap
  rw [List.get?_map, List.get?_map]
  cases h1 : l.get? i <;> cases h2 : l.get? j <;>
    simp [List.map_set]

theorem iterApply_swap_map (f : α → β) (i j k : Nat) (l : List α) :
    iterApply (fun p => listSwap p i j) k (l.map f) =
      (iterApply (fun p => listSwap p i j) k l).map f := by
  induction k generalizing l with
  | zero => rfl
  | succ n ih => simp [iterApply, listSwap_map, ih]

theorem posSwapStep_map (f : α → β) (l : List α) (ad : Axis × Int) :
    posSwapStep (l.map f) ad = (posSwapStep l ad).map f := by
  unfold posSwapStep
  split
  · rfl
  · split
    · exact iterApply_swap_map f _ _ _ l
    · rfl

theorem foldl_posSwapStep_map (f : α → β) (req : List (Axis × Int)) (l : List α) :
    req.foldl posSwapStep (l.map f) = (req.foldl posSwapStep l).map f := by
  induction req generalizing l with
  | nil => rfl
  | cons ad t ih => simp [List.foldl_cons, posSwapStep_map, ih]

/-- Shape of one 90-degree plane rotation: the two positions of the plane
are swapped. -/
theorem shape_rotPlane (a : Axis) (v : Vol) :
    (rotPlane a v).shape =
      listSwap v.shape (axisPlanePair a).1 (axisPlanePair a).2 := by
  cases a <;> rfl

theorem shape_iterApply_rotPlane (a : Axis) (k : Nat) (v : Vol) :
    (iterApply (rotPlane a) k v).shape =
      iterApply (fun p => listSwap p (axisPlanePair a).1 (axisPlanePair a).2) k
        v.shape := by
  induction k generalizing v with
  | zero => rfl
  | succ n ih => simp [iterApply, ih, shape_rotPlane]

/-- A valid rotation step succeeds, and its effect on the shape is the
corresponding swap step of `update_voxel_sizes_after_rotation`. -/
theorem rotStep_shape (v : Vol) (ad : Axis × Int)
    (h : ad.2 ∈ ([0, 90, 180, 270] : List Int)) :
    ∃ w, rotStep v ad = .ok w ∧ w.shape = posSwapStep v.shape ad := by
  unfold rotStep posSwapStep
  by_cases h0 : ad.2 = 0
  · exact ⟨v, by simp [h0]⟩
  · have hmem : ad.2 ∈ ([90, 180, 270] : List Int) := by
      simp only [List.mem_cons, List.not_mem_nil, or_false] at h ⊢
      rcases h with h | h
      · exact absurd h h0
      · exact h
    refine ⟨iterApply (rotPlane ad.1) (ad.2 / 90).toNat v, ?_, ?_⟩
    · simp [h0, h]
    · simp [h0, hmem, shape_iterApply_rotPlane]

/-- A valid request succeeds, and the rotated shape is the same
position-swap fold the voxel-size update performs. -/
theorem apply_rotations_shape (req : List (Axis × Int)) (v : Vol)
    (hv : ∀ ad ∈ req, ad.2 ∈ ([0, 90, 180, 270] : List Int)) :
    ∃ w, apply_rotations v req = .ok w ∧
      w.shape = req.foldl posSwapStep v.shape := by
  induction req generalizing v with
  | nil => exact ⟨v, rfl, rfl⟩
  | cons ad t ih =>
    obtain ⟨w1, hw1, hs1⟩ := rotStep_shape v ad (hv ad (by simp))
    obtain ⟨w, hw, hs⟩ := ih w1 (fun b hb => hv b (by simp [hb]))
    refine ⟨w, ?_, ?_⟩
    · simpa [apply_rotations, List.foldlM_cons, hw1] using hw
    · simp [List.foldl_cons, ← hs1, hs]

/-- `DEFAULT_VOXEL_SIZE` is the rational 0.5 of the sources. -/
theorem DEFAULT_VOXEL_SIZE_eq : DEFAULT_VOXEL_SIZE = 1 / 2 := by
  norm_num [DEFAULT_VOXEL_SIZE, Rat.mk'_eq_divInt, Rat.divInt_eq_div]

theorem listSwap_length (l : List α) (i j : Nat) :
    (listSwap l i j).length = l.length := by
  unfold listSwap
  split <;> simp

theorem posSwapStep_length (l : List α) (ad : Axis × Int) :
    (posSwapStep l ad).length = l.length := by
  unfold posSwapStep
  split
  · rfl
  · split
    · generalize (ad.2 / 90).toNat = k
      induction k generalizing l with
      | zero => rfl
      | succ n ih => simp [iterApply, ih, listSwap_length]
    · rfl

theorem spacingPerm_length (req : List (Axis × Int)) :
    (spacingPerm req).length = 3 := by
  unfold spacingPerm
  generalize hl : ([0, 1, 2] : List Nat) = l
  have h3 : l.length = 3 := by rw [← hl]; rfl
  clear hl
  induction req generalizing l with
  | nil => exact h3
  | cons ad t ih => simpa [List.foldl_cons, posSwapStep_length] using ih _ (by simp [posSwapStep_length, h3])

/-- A request whose amounts are all 0 or 180 produces the identity
permutation. -/
theorem spacingPerm_trivial (req : List (Axis × Int))
    (h : ∀ ad ∈ req, ad.2 = 0 ∨ ad.2 = 180) : spacingPerm req = [0, 1, 2] := by
  unfold spacingPerm
  induction req with
  | nil => rfl
  | cons ad t ih =>
    have hstep : posSwapStep ([0, 1, 2] : List Nat) ad = [0, 1, 2] := by
      rcases h ad (by simp) with h0 | h180
      · simp [posSwapStep, h0]
      · obtain ⟨a, d⟩ := ad
        cases a <;> simp_all [posSwapStep, axisPlanePair] <;> decide
    rw [List.foldl_cons, hstep]
    exact ih fun b hb => h b (by simp [hb])

/-- Inversion of a recorded spacing value: the store holds an entry whose
`image_info` object carries that `voxel_sizes` value. -/
theorem storedVoxelSizes_inv (store : Store) (p : String) (v : JFlat)
    (h : storedVoxelSizes store p = some v) :
    ∃ entry ii, dictGet store p = some entry ∧
      dictGet entry "image_info" = some (.obj ii) ∧
      dictGet ii "voxel_sizes" = some v := by
  unfold storedVoxelSizes at h
  rcases hst : dictGet store p with _ | entry
  · rw [hst] at h
    simp at h
  · rw [hst] at h
    dsimp only at h
    rcases hii : dictGet entry "image_info" with _ | f
    · rw [hii] at h
      simp at h
    · rw [hii] at h
      cases f with
      | leaf w => simp at h
      | obj ii =>
        dsimp only at h
        exact ⟨entry, ii, rfl, hii, h⟩

/-- After the voxel-size update rewrites the `image_info` object to `ii1`,
the recorded spacing value is the `voxel_sizes` key of `ii1`. -/
theorem storedVoxelSizes_after_update (store : Store) (p : String)
    (entry : Entry) (ii1 : List (String × JFlat)) :
    storedVoxelSizes (dictSet store p (dictSet entry "image_info" (.obj ii1))) p =
      dictGet ii1 "voxel_sizes" := by
  unfold storedVoxelSizes
  rw [dictGet_set_self]
  show (match dictGet (dictSet entry "image_info" (.obj ii1)) "image_info" with
      | some (.obj ii) => dictGet ii "voxel_sizes"
      | _ => none) = dictGet ii1 "voxel_sizes"
  rw [dictGet_set_self]

/-- The voxel-size update on a recorded list `xs`: it succeeds and records
the permuted list `ys` (when the recorded list is the default triple the
source returns early, which coincides because the permutation of a constant
triple is itself — hypothesis `hconst`). -/
theorem update_voxel_triple (store : Store) (p : String) (xs ys : List ℚ)
    (req : List (Axis × Int))
    (h : storedVoxelSizes store p = some (.qlist xs))
    (hmap : (spacingPerm req).mapM (fun i => xs.get? i) = some ys)
    (hconst : JFlat.qlist xs = defaultVoxelTriple → ys = xs) :
    ∃ s1, update_voxel_sizes_after_rotation (some store) p req = .ok (some s1) ∧
      storedVoxelSizes s1 p = some (.qlist ys) := by
  obtain ⟨entry, ii, hst, hii, hvv⟩ := storedVoxelSizes_inv store p _ h
  by_cases hd : JFlat.qlist xs = defaultVoxelTriple
  · refine ⟨store, ?_, ?_⟩
    · simp only [update_voxel_sizes_after_rotation, hst, hii, hvv, Option.getD_some, hd,
        if_pos]
    · rw [h, hconst hd]
  · refine ⟨dictSet store p
      (dictSet entry "image_info"
        (.obj (dictSet ii "voxel_sizes" (.qlist ys)))), ?_, ?_⟩
    · simp only [update_voxel_sizes_after_rotation, hst, hii, hvv, Option.getD_some, hd,
        if_neg, if_false, hmap]
    · rw [storedVoxelSizes_after_update, dictGet_set_self]

/-- After writing a record whose `image_info` object is `X`, the recorded
spacing value read back is the `voxel_sizes` key of `X`. -/
theorem storedVoxelSizes_after_set (store : Store) (path : String)
    (entry : Entry) (X : List (String × JFlat)) (aa : JField) :
    storedVoxelSizes
        (dictSet store path
          (dictSet (dictSet entry "image_info" (.obj X)) "automated_analysis" aa))
        path = dictGet X "voxel_sizes" := by
  unfold storedVoxelSizes
  rw [dictGet_set_self]
  show (match dictGet
        (dictSet (dictSet entry "image_info" (.obj X)) "automated_analysis" aa)
        "image_info" with
      | some (.obj ii) => dictGet ii "voxel_sizes"
      | _ => none) = dictGet X "voxel_sizes"
  rw [dictGet_set_ne _ _ _ _ (by decide), dictGet_set_self]

/-! ## Claim C1 — the spacing update versus the data rotation -/

/-- What `update_voxel_sizes_after_rotation` does to a recorded triple
`[a, b, c]`, positionally: `{x: 90}` swaps record positions 0 and 1,
`{y: 90}` positions 0 and 2, `{z: 90}` positions 1 and 2, a 0/180-only
request is the identity, and for every valid request `apply_rotations`
succeeds and permutes the positions of the `[Z, Y, X]` data shape by the
same positional fold `spacingPerm`.  Which physical axes these record
positions denote depends on the record's axis order, which is set by the
store's writer — see the C1 evaluation below. -/
theorem update_voxel_positional_swaps :
    (∀ (store : Store) (p : String) (a b c : ℚ),
      storedVoxelSizes store p = some (.qlist [a, b, c]) →
      (∃ s1,
          update_voxel_sizes_after_rotation (some store) p [(Axis.x, 90)] =
            .ok (some s1) ∧
          storedVoxelSizes s1 p = some (.qlist [b, a, c])) ∧
      (∃ s1,
          update_voxel_sizes_after_rotation (some store) p [(Axis.y, 90)] =
            .ok (some s1) ∧
          storedVoxelSizes s1 p = some (.qlist [c, b, a])) ∧
      (∃ s1,
          update_voxel_sizes_after_rotation (some store) p [(Axis.z, 90)] =
            .ok (some s1) ∧
          storedVoxelSizes s1 p = some (.qlist [a, c, b]))) ∧
    (∀ (store : Store) (p : String) (a b c : ℚ) (req : List (Axis × Int)),
      storedVoxelSizes store p = some (.qlist [a, b, c]) →
      (∀ ad ∈ req, ad.2 = 0 ∨ ad.2 = 180) →
      ∃ s1,
        update_voxel_sizes_after_rotation (some store) p req = .ok (some s1) ∧
        storedVoxelSizes s1 p = some (.qlist [a, b, c])) ∧
    (∀ (req : List (Axis × Int)) (v : Vol),
      (∀ ad ∈ req, ad.2 ∈ ([0, 90, 180, 270] : List Int)) →
      ∃ w, apply_rotations v req = .ok w ∧
        w.shape = (spacingPerm req).map fun i => v.shape.getD i 0) := by
  refine ⟨?_, ?_, ?_⟩
  · intro store p a b c h
    refine ⟨?_, ?_, ?_⟩
    · refine update_voxel_triple store p [a, b, c] [b, a, c] _ h rfl ?_
      intro hd
      simp only [defaultVoxelTriple, JFlat.qlist.injEq, List.cons.injEq, and_true] at hd
      obtain ⟨ha, hb, _⟩ := hd
      rw [ha, hb]
    · refine update_voxel_triple store p [a, b, c] [c, b, a] _ h rfl ?_
      intro hd
      simp only [defaultVoxelTriple, JFlat.qlist.injEq, List.cons.injEq, and_true] at hd
      obtain ⟨ha, _, hc⟩ := hd
      rw [ha, hc]
    · refine update_voxel_triple store p [a, b, c] [a, c, b] _ h rfl ?_
      intro hd
      simp only [defaultVoxelTriple, JFlat.qlist.injEq, List.cons.injEq, and_true] at hd
      obtain ⟨_, hb, hc⟩ := hd
      rw [hb, hc]
  · intro store p a b c req h hall
    refine update_voxel_triple store p [a, b, c] [a, b, c] req h ?_ fun _ => rfl
    rw [spacingPerm_trivial req hall]
    rfl
  · intro req v hv
    obtain ⟨w, hw, hs⟩ := apply_rotations_shape req v hv
    refine ⟨w, hw, ?_⟩
    rw [hs]
    have hshape : v.shape = ([0, 1, 2] : List Nat).map fun i => v.shape.getD i 0 := rfl
    calc req.foldl posSwapStep v.shape
        = req.foldl posSwapStep (([0, 1, 2] : List Nat).map fun i => v.shape.getD i 0) := by
          rw [← hshape]
      _ = (spacingPerm req).map fun i => v.shape.getD i 0 := by
          rw [foldl_posSwapStep_map]
          rfl

/-- C1, evaluated at the failing input.  The orientation store's only
writer records `voxel_sizes` in `[vx, vy, vz]` order
(`sample_vox = [vx, vy, vz]` in `get_image_data.main`, lines 389 and 464,
saved at line 592 through `save_to_orientations`); here `[1, 2, 3]`.  For
the request `{x: 90}`, `update_voxel_sizes_after_rotation` swaps record
positions 0 and 1 — the x- and y-spacings — producing `[2, 1, 3]`,
whereas the claim requires the spacings of axes 1 and 2 (y and z) to be
swapped, i.e. `[1, 3, 2]`.  The data rotation does swap the Y and Z
extents of the `[Z, Y, X]` stack (shape `[1, 2, 3] ↦ [2, 1, 3]`), so the
record permutation is not the axis permutation the data rotation applies
and the record no longer describes the rotated data: the updater's
assumption that the record is in `[Z, Y, X]` order (the comment at
apply_rotation.py lines 162-163) is contradicted by the writer. -/
theorem claim_C1_update_swaps_wrong_axes :
    save_to_orientations [] "img" [("voxel_sizes", JFlat.qlist [1, 2, 3])]
        (.obj []) = .ok c1WrittenStore ∧
    storedVoxelSizes c1WrittenStore "img" = some (.qlist [1, 2, 3]) ∧
    update_voxel_sizes_after_rotation (some c1WrittenStore) "img"
        [(Axis.x, 90)] = .ok (some c1UpdatedStore) ∧
    storedVoxelSizes c1UpdatedStore "img" = some (.qlist [2, 1, 3]) ∧
    (JFlat.qlist [2, 1, 3] : JFlat) ≠ .qlist [1, 3, 2] ∧
    c1DataVol.shape = [1, 2, 3] ∧
    (∃ w, apply_rotations c1DataVol [(Axis.x, 90)] = .ok w ∧
      w.shape = [2, 1, 3]) := by
  refine ⟨by decide, by decide, by decide, by decide, by decide, rfl,
    ⟨⟨2, 1, 3, [4, 5, 6, 1, 2, 3]⟩, by decide, rfl⟩⟩

/-! ## Claim C4 — composition order of apply_rotations -/

/-- C4 counterexample: the request listing `z` before `x` is applied in that
listed order, and the result differs from applying the X rotation first and
the Z rotation second (the shapes already differ), so the composition order
is not the fixed X-then-Y-then-Z order for every request. -/
theorem claim_C4_counterexample :
    apply_rotations c4Vol [(Axis.z, 90), (Axis.x, 90)] ≠
      .ok (iterApply (rotPlane Axis.z) 1 (iterApply (rotPlane Axis.x) 1 c4Vol)) := by
  decide

/-- C4 as amended: `apply_rotations` applies the rotations in the order the
request lists its axes; for a request listed in the canonical x, y, z order
with valid amounts this is exactly the X rotation, then Y, then Z. -/
theorem claim_C4_amended_listed_order (v : Vol) (dx dy dz : Int)
    (hx : dx ∈ ([0, 90, 180, 270] : List Int))
    (hy : dy ∈ ([0, 90, 180, 270] : List Int))
    (hz : dz ∈ ([0, 90, 180, 270] : List Int)) :
    apply_rotations v [(Axis.x, dx), (Axis.y, dy), (Axis.z, dz)] =
      .ok (iterApply (rotPlane Axis.z) (dz / 90).toNat
        (iterApply (rotPlane Axis.y) (dy / 90).toNat
          (iterApply (rotPlane Axis.x) (dx / 90).toNat v))) := by
  have step : ∀ (w : Vol) (a : Axis) (d : Int),
      d ∈ ([0, 90, 180, 270] : List Int) →
      rotStep w (a, d) = .ok (iterApply (rotPlane a) (d / 90).toNat w) := by
    intro w a d hd
    by_cases h0 : d = 0
    · subst h0
      simp [rotStep, iterApply]
    · simp [rotStep, h0, hd]
  simp only [apply_rotations, List.foldlM_cons, List.foldlM_nil,
    step _ _ _ hx, step _ _ _ hy, step _ _ _ hz]
  rfl

/-- Witness for the amended C4 at a concrete volume and request. -/
theorem claim_C4_amended_listed_order_witness :
    apply_rotations c4Vol [(Axis.x, 90), (Axis.y, 0), (Axis.z, 180)] =
      .ok (iterApply (rotPlane Axis.z) 2
        (iterApply (rotPlane Axis.y) 0 (iterApply (rotPlane Axis.x) 1 c4Vol))) :=
  claim_C4_amended_listed_order c4Vol 90 0 180 (by decide) (by decide) (by decide)

/-! ## Claims C8 and C10 — the voxel-size extractors -/

/-- `if v: v /= 1000` on a present value is division by 1000 (a zero value
is skipped by the truthiness test but equals its own quotient). -/
theorem divTruthy_some (q : ℚ) : divTruthy (some q) = some (q / 1000) := by
  by_cases hq : q = 0 <;> simp [divTruthy, hq]

/-- The micron and nanometer unit spellings are disjoint. -/
theorem mem_micron_not_nm (s : String) (hs : s ∈ micronUnits) : s ∉ nmUnits := by
  fin_cases hs <;> decide

/-- The two ImageJ metadata blocks agree: the explicit micron pass-branch of
`get_image_data` is a no-op that `convert_tiff_to_nrrd` simply omits. -/
theorem ij_blocks_eq (t : TifHandle) : gidIJBlock t = ctnIJBlock t := by
  obtain ⟨fails, ij, pf, xr, yr, ome⟩ := t
  cases fails with
  | true => rfl
  | false =>
    cases ij with
    | none => rfl
    | some ij =>
      obtain ⟨sp, u⟩ := ij
      unfold gidIJBlock ctnIJBlock
      cases sp with
      | malformed => rfl
      | absent =>
        cases pf with
        | true => rfl
        | false =>
          simp only [Bool.false_eq_true, if_false]
          by_cases h1 : u.getD "micron" ≠ "" ∧
              pyLower (u.getD "micron") ∈ micronUnits
          · rw [if_pos h1, if_neg fun h2 => mem_micron_not_nm _ h1.2 h2.2]
          · rw [if_neg h1]
      | val q =>
        cases pf with
        | true => rfl
        | false =>
          simp only [Bool.false_eq_true, if_false]
          by_cases h1 : u.getD "micron" ≠ "" ∧
              pyLower (u.getD "micron") ∈ micronUnits
          · rw [if_pos h1, if_neg fun h2 => mem_micron_not_nm _ h1.2 h2.2]
          · rw [if_neg h1]

/-- The two OME fallback blocks are textually identical. -/
theorem ome_blocks_eq (t : TifHandle) (v : VTriple) :
    gidOMEBlock t v = ctnOMEBlock t v := rfl

/-- C10: on every TIFF handle the two extractors compute the same physical
spacings; the `get_image_data` triple `[vz, vy, vx]` is the reverse of the
`convert_tiff_to_nrrd` triple `[vx, vy, vz]`. -/
theorem claim_C10_extractors_agree (t : TifHandle) :
    gid_extract_voxel_sizes t = (ctn_extract_voxel_sizes t).reverse := by
  unfold gid_extract_voxel_sizes ctn_extract_voxel_sizes
  rw [ij_blocks_eq, ome_blocks_eq]
  simp

/-- C8: the `get_image_data` extractor is total (it returns a triple for
every handle — the `try/except` structure is embedded as the total functions
`gidIJBlock`/`gidOMEBlock`), degrades to the default spacing 0.5 when both
metadata sources are missing or unreadable, fills a missing Y resolution
from X, and divides by 1000 under a nanometer unit. -/
theorem claim_C8_extractor_never_fails :
    (∀ t : TifHandle, (gid_extract_voxel_sizes t).length = 3) ∧
    (∀ t : TifHandle,
      (t.ijAccessFails = true ∨ t.ij = none) →
      (t.ome = none ∨ ∃ o, t.ome = some o ∧ o.parseFails = true) →
      gid_extract_voxel_sizes t =
        [DEFAULT_VOXEL_SIZE, DEFAULT_VOXEL_SIZE, DEFAULT_VOXEL_SIZE]) ∧
    (∀ a b : ℚ, 0 < a →
      gid_extract_voxel_sizes
          ⟨false, some ⟨.absent, none⟩, false, .pair a b, .missing, none⟩ =
        [DEFAULT_VOXEL_SIZE, b / a, b / a]) ∧
    (∀ z a b : ℚ, 0 < a →
      gid_extract_voxel_sizes
          ⟨false, some ⟨.val z, some "nm"⟩, false, .pair a b, .pair a b, none⟩ =
        [z / 1000, b / a / 1000, b / a / 1000]) := by
  refine ⟨fun t => rfl, ?_, ?_, ?_⟩
  · intro t h1 h2
    have hij : gidIJBlock t = ⟨none, none, none⟩ := by
      rcases h1 with hf | hn
      · simp [gidIJBlock, hf]
      · unfold gidIJBlock
        rw [hn]
        split <;> rfl
    have home : gidOMEBlock t ⟨none, none, none⟩ = ⟨none, none, none⟩ := by
      unfold gidOMEBlock
      rcases h2 with hn | ⟨o, ho, hop⟩
      · rw [hn]
        rfl
      · rw [ho]
        simp [hop]
    simp [gid_extract_voxel_sizes, hij, home]
  · intro a b ha
    have hij : gidIJBlock
        ⟨false, some ⟨.absent, none⟩, false, .pair a b, .missing, none⟩ =
        ⟨some (b / a), none, none⟩ := by
      unfold gidIJBlock
      have hcond : (("micron" : String) ≠ "" ∧
          pyLower "micron" ∈ micronUnits) := by decide
      simp [resValue, ha, hcond]
    simp [gid_extract_voxel_sizes, hij, gidOMEBlock]
  · intro z a b ha
    have hij : gidIJBlock
        ⟨false, some ⟨.val z, some "nm"⟩, false, .pair a b, .pair a b, none⟩ =
        ⟨some (b / a / 1000), some (b / a / 1000), some (z / 1000)⟩ := by
      unfold gidIJBlock
      have hc1 : ¬(("nm" : String) ≠ "" ∧
          pyLower "nm" ∈ micronUnits) := by decide
      have hc2 : (("nm" : String) ≠ "" ∧
          pyLower "nm" ∈ nmUnits) := by decide
      simp only [Bool.false_eq_true, if_false, if_neg, Option.getD_some, hc1, hc2,
        if_true, if_pos, resValue, ha]
      simp [divTruthy_some, (by decide : ("nm" : String) ≠ "")]
    simp [gid_extract_voxel_sizes, hij, gidOMEBlock]

/-- Witness for C8: concrete handles for each clause. -/
theorem claim_C8_extractor_never_fails_witness :
    (gid_extract_voxel_sizes ⟨true, none, false, .missing, .missing, none⟩).length
        = 3 ∧
    gid_extract_voxel_sizes ⟨true, none, false, .missing, .missing, none⟩ =
      [DEFAULT_VOXEL_SIZE, DEFAULT_VOXEL_SIZE, DEFAULT_VOXEL_SIZE] ∧
    gid_extract_voxel_sizes
        ⟨false, some ⟨.absent, none⟩, false, .pair 1 2, .missing, none⟩ =
      [DEFAULT_VOXEL_SIZE, 2 / 1, 2 / 1] ∧
    gid_extract_voxel_sizes
        ⟨false, some ⟨.val 3, some "nm"⟩, false, .pair 1 2, .pair 1 2, none⟩ =
      [3 / 1000, 2 / 1 / 1000, 2 / 1 / 1000] := by
  have h := claim_C8_extractor_never_fails
  exact ⟨h.1 _, h.2.1 _ (Or.inl rfl) (Or.inl rfl), h.2.2.1 1 2 (by decide),
    h.2.2.2 3 1 2 (by decide)⟩

/-! ## Claim C3 — save_to_orientations merge semantics -/

/-- C3: for every state of the orientation store and every successful
`save_to_orientations(identity, image_info, automated_analysis)` call, the
stored record for that identity afterwards has `automated_analysis` equal to
the call's argument, while its `manual_corrections`, every other
pre-existing key of the record apart from the two keys the call writes
(`image_info`, `automated_analysis`), and all records for other identities
are unchanged. -/
theorem claim_C3_save_merge_preserves (store : Store) (path : String)
    (image_info : List (String × JFlat)) (aa : JField) (s1 : Store)
    (h : save_to_orientations store path image_info aa = .ok s1) :
    dictGet ((dictGet s1 path).getD []) "automated_analysis" = some aa ∧
    dictGet ((dictGet s1 path).getD []) "manual_corrections" =
      dictGet ((dictGet store path).getD []) "manual_corrections" ∧
    (∀ k, k ≠ "image_info" → k ≠ "automated_analysis" →
      dictGet ((dictGet s1 path).getD []) k =
        dictGet ((dictGet store path).getD []) k) ∧
    (∀ p, p ≠ path → dictGet s1 p = dictGet store p) := by
  simp only [save_to_orientations] at h
  split at h
  · simp at h
  · rw [Except.ok.injEq] at h
    subst h
    simp only [dictGet_set_self, Option.getD_some]
    refine ⟨?_, ?_, ?_, ?_⟩
    · trivial
    · rw [dictGet_set_ne _ _ _ _ (by decide), dictGet_set_ne _ _ _ _ (by decide)]
    · intro k hk1 hk2
      rw [dictGet_set_ne _ _ _ _ hk2, dictGet_set_ne _ _ _ _ hk1]
    · intro p hp
      rw [dictGet_set_ne _ _ _ _ hp]

/-- Witness for C3 at a concrete store: a record with `manual_corrections`
and an extra key keeps both, while `automated_analysis` becomes the new
argument and the other identity is untouched. -/
theorem claim_C3_save_merge_preserves_witness :
    dictGet ((dictGet (save3Witness) "img").getD []) "automated_analysis" =
        some (.leaf (.num 2)) ∧
      dictGet ((dictGet (save3Witness) "img").getD []) "manual_corrections" =
        some (.obj [("rotations", .qlist [0, 180, 0])]) ∧
      dictGet ((dictGet (save3Witness) "img").getD []) "approved" =
        some (.leaf (.jbool true)) ∧
      dictGet (save3Witness) "other" = some [] := by
  have h := claim_C3_save_merge_preserves c3Store "img" [] (.leaf (.num 2))
    save3Witness (by decide)
  refine ⟨h.1, ?_, ?_, ?_⟩
  · rw [h.2.1]; decide
  · rw [h.2.2.1 "approved" (by decide) (by decide)]; decide
  · rw [h.2.2.2 "other" (by decide)]; decide

/-! ## Claim C7 — the default-spacing guard of save_to_orientations -/

/-- C7 counterexample: a record whose stored `voxel_sizes` is JSON `null` is
present and differs from the default triple, yet a save overwrites it with
the caller's triple instead of preserving it (the source tests Python
truthiness, not mere presence). -/
theorem claim_C7_counterexample :
    storedVoxelSizes c7Store "img" = some JFlat.jnull ∧
    JFlat.jnull ≠ defaultVoxelTriple ∧
    ∃ s1,
      save_to_orientations c7Store "img" [("voxel_sizes", JFlat.qlist [1, 2, 3])]
          (.obj []) = .ok s1 ∧
      storedVoxelSizes s1 "img" = some (JFlat.qlist [1, 2, 3]) := by
  refine ⟨by decide, by decide,
    [("img",
        [("image_info", .obj [("voxel_sizes", JFlat.qlist [1, 2, 3])]),
          ("automated_analysis", .obj [])])],
    by decide, by decide⟩

/-- C7 as amended: the stored `voxel_sizes` survives a save exactly when it
is present, truthy (non-null, non-empty, non-zero) and different from the
default triple `[0.5, 0.5, 0.5]`; a stored value that is absent, equal to
the default, or falsy is replaced by the caller's value. -/
theorem claim_C7_amended_default_guard (store : Store) (path : String)
    (image_info : List (String × JFlat)) (aa : JField) (s1 : Store)
    (h : save_to_orientations store path image_info aa = .ok s1) :
    ((storedVoxelSizes store path = none ∨
        storedVoxelSizes store path = some defaultVoxelTriple ∨
        (∃ v, storedVoxelSizes store path = some v ∧ v.truthy = false)) →
      storedVoxelSizes s1 path = dictGet image_info "voxel_sizes") ∧
    (∀ v, storedVoxelSizes store path = some v → v.truthy = true →
      v ≠ defaultVoxelTriple → storedVoxelSizes s1 path = some v) := by
  simp only [save_to_orientations] at h
  split at h
  · simp at h
  · rename_i existing heq
    rw [Except.ok.injEq] at h
    subst h
    have hstored : storedVoxelSizes store path = dictGet existing "voxel_sizes" := by
      cases hst : dictGet store path with
      | none =>
        rw [hst] at heq
        simp only [Option.getD_none, dictGet, Option.getD_some] at heq
        cases heq
        simp [storedVoxelSizes, hst, dictGet]
      | some e =>
        rw [hst] at heq
        simp only [Option.getD_some] at heq
        cases hii : dictGet e "image_info" with
        | none =>
          rw [hii] at heq
          simp only [Option.getD_none] at heq
          cases heq
          simp [storedVoxelSizes, hst, hii, dictGet]
        | some f =>
          rw [hii] at heq
          simp only [Option.getD_some] at heq
          subst heq
          simp [storedVoxelSizes, hst, hii]
    cases hvs : dictGet existing "voxel_sizes" with
    | none =>
      refine ⟨fun _ => ?_, fun v hv _ _ => ?_⟩
      · rw [storedVoxelSizes_after_set]
      · rw [hstored, hvs] at hv
        cases hv
    | some v0 =>
      constructor
      · intro hcase
        rw [storedVoxelSizes_after_set]
        have hfail : ¬(v0.truthy = true ∧ v0 ≠ defaultVoxelTriple) := by
          rcases hcase with hnone | hdef | ⟨v, hv, hvf⟩
          · rw [hstored, hvs] at hnone
            cases hnone
          · rw [hstored, hvs] at hdef
            rw [Option.some_inj] at hdef
            subst hdef
            simp
          · rw [hstored, hvs, Option.some_inj] at hv
            subst hv
            simp [hvf]
        simp [hfail]
      · intro v hv htr hne
        rw [hstored, hvs, Option.some_inj] at hv
        subst hv
        rw [storedVoxelSizes_after_set]
        simp only [htr, ne_eq, hne, not_false_iff, and_self, if_true]
        exact dictGet_set_self _ _ _

/-! ## Lemmas about apply_rotation_main -/

/-- The temporary file name never collides with its target. -/
theorem tmpName_ne (t : String) : tmpName t ≠ t := by
  intro h
  have h2 := congrArg String.length h
  simp only [tmpName, String.length_append] at h2
  rw [show ("__tmp__" : String).length = 7 from by decide] at h2
  omega

/-- An all-zero request leaves the array content of a volume unchanged. -/
theorem apply_rotations_zero (v : Vol) (req : List (Axis × Int))
    (h : ∀ ad ∈ req, ad.2 = 0) : apply_rotations v req = .ok v := by
  induction req with
  | nil => rfl
  | cons ad t ih =>
    have h0 : rotStep v ad = .ok v := by simp [rotStep, h ad (by simp)]
    simpa [apply_rotations, List.foldlM_cons, h0] using
      ih fun b hb => h b (by simp [hb])

/-- An all-zero request leaves a whole stack unchanged. -/
theorem rotateStack_zero (s : Stack) (req : List (Axis × Int))
    (h : ∀ ad ∈ req, ad.2 = 0) : rotateStack s req = .ok s := by
  cases s with
  | threeD v =>
    show Except.map Stack.threeD (apply_rotations v req) =
      Except.ok (Stack.threeD v)
    rw [apply_rotations_zero v req h]
    rfl
  | fourD chs =>
    have hm : chs.mapM (fun c => apply_rotations c req) = .ok chs := by
      induction chs with
      | nil => rfl
      | cons c t ih =>
        rw [List.mapM_cons, apply_rotations_zero c req h, ih]
        rfl
    show Except.map Stack.fourD (chs.mapM fun c => apply_rotations c req) =
      Except.ok (Stack.fourD chs)
    rw [hm]
    rfl

/-- The final world and outcome of a successful run of
`apply_rotation_main` on an existing `.tif` file. -/
theorem apply_rotation_main_ok (w : World) (img : String) (c : TiffContent)
    (req : List (Axis × Int)) (rot : Stack) (o2 : Option Store)
    (hfind : dictGet w.images (img ++ ".tif") = some c)
    (hrot : rotateStack c.stack req = .ok rot)
    (hupd : update_voxel_sizes_after_rotation w.orientations img req = .ok o2) :
    apply_rotation_main w img req false =
      (World.mk
        (dictSet
          (dictDel
            (dictSet (dictSet w.images (tmpName (img ++ ".tif")) blankTiff)
              (tmpName (img ++ ".tif")) (writtenTiff c rot))
            (tmpName (img ++ ".tif")))
          (img ++ ".tif") (writtenTiff c rot))
        o2, none) := by
  simp only [apply_rotation_main, hfind, hrot, hupd, Bool.false_eq_true,
    if_false]

/-- The final world and outcome of a run of `apply_rotation_main` whose
`tifffile.imwrite` fails. -/
theorem apply_rotation_main_fail (w : World) (img : String) (c : TiffContent)
    (req : List (Axis × Int)) (rot : Stack)
    (hfind : dictGet w.images (img ++ ".tif") = some c)
    (hrot : rotateStack c.stack req = .ok rot) :
    apply_rotation_main w img req true =
      (World.mk
        (dictDel (dictSet w.images (tmpName (img ++ ".tif")) blankTiff)
          (tmpName (img ++ ".tif")))
        w.orientations, some .writeError) := by
  simp only [apply_rotation_main, hfind, hrot, eq_self_iff_true, if_true]

/-! ## Claim C5 — temp-file write and atomic replace -/

/-- C5: with the TIFF present and the rotation and voxel-size update
well-defined, a successful run leaves the fully rotated content under the
original name and no temporary file; a failed write reports the error,
removes the temporary file and leaves the original content unchanged; in
both cases the file under the original name is the pre-rotation content or
the fully rotated content. -/
theorem claim_C5_atomic_write (w : World) (img : String) (c : TiffContent)
    (req : List (Axis × Int)) (rot : Stack) (o2 : Option Store)
    (hfind : dictGet w.images (img ++ ".tif") = some c)
    (hrot : rotateStack c.stack req = .ok rot)
    (hupd : update_voxel_sizes_after_rotation w.orientations img req = .ok o2) :
    ((apply_rotation_main w img req false).2 = none ∧
      dictGet (apply_rotation_main w img req false).1.images (img ++ ".tif") =
        some (writtenTiff c rot) ∧
      dictGet (apply_rotation_main w img req false).1.images
        (tmpName (img ++ ".tif")) = none) ∧
    ((apply_rotation_main w img req true).2 = some .writeError ∧
      dictGet (apply_rotation_main w img req true).1.images (img ++ ".tif") =
        some c ∧
      dictGet (apply_rotation_main w img req true).1.images
        (tmpName (img ++ ".tif")) = none) ∧
    (∀ fails : Bool,
      dictGet (apply_rotation_main w img req fails).1.images (img ++ ".tif") =
          some c ∨
        ∃ c1,
          dictGet (apply_rotation_main w img req fails).1.images (img ++ ".tif") =
              some c1 ∧
            c1.stack = rot) := by
  have hok := apply_rotation_main_ok w img c req rot o2 hfind hrot hupd
  have hfail := apply_rotation_main_fail w img c req rot hfind hrot
  have htmp := tmpName_ne (img ++ ".tif")
  refine ⟨⟨?_, ?_, ?_⟩, ⟨?_, ?_, ?_⟩, ?_⟩
  · rw [hok]
  · rw [hok]
    exact dictGet_set_self _ _ _
  · rw [hok]
    dsimp only
    rw [dictGet_set_ne _ _ _ _ htmp, dictGet_del_self]
  · rw [hfail]
  · rw [hfail]
    dsimp only
    rw [dictGet_del_ne _ _ _ (fun hh => htmp hh.symm),
      dictGet_set_ne _ _ _ _ (fun hh => htmp hh.symm), hfind]
  · rw [hfail]
    dsimp only
    rw [dictGet_del_self]
  · intro fails
    cases fails with
    | false =>
      right
      refine ⟨writtenTiff c rot, ?_, rfl⟩
      rw [hok]
      exact dictGet_set_self _ _ _
    | true =>
      left
      rw [hfail]
      dsimp only
      rw [dictGet_del_ne _ _ _ (fun hh => htmp hh.symm),
        dictGet_set_ne _ _ _ _ (fun hh => htmp hh.symm), hfind]

/-- Witness for C5 at a concrete world, request and rotated stack. -/
theorem claim_C5_atomic_write_witness :
    (apply_rotation_main c5World "img" [(Axis.x, 90)] false).2 = none ∧
      dictGet (apply_rotation_main c5World "img" [(Axis.x, 90)] false).1.images
          "img.tif" =
        some (writtenTiff c5Tiff (.threeD ⟨2, 2, 2, [3, 4, 7, 8, 1, 2, 5, 6]⟩)) ∧
      (apply_rotation_main c5World "img" [(Axis.x, 90)] true).2 =
        some .writeError ∧
      dictGet (apply_rotation_main c5World "img" [(Axis.x, 90)] true).1.images
          "img.tif" = some c5Tiff := by
  have h := claim_C5_atomic_write c5World "img" c5Tiff [(Axis.x, 90)]
    (.threeD ⟨2, 2, 2, [3, 4, 7, 8, 1, 2, 5, 6]⟩) none rfl (by decide) rfl
  exact ⟨h.1.1, h.1.2.1, h.2.1.1, h.2.1.2.1⟩

/-! ## Claim C6 — the all-zero rotation request -/

/-- C6 counterexample: an all-zero request on a LUT-bearing ImageJ TIFF
completes without error and leaves the array content unchanged, but the
file under the original name is rewritten: its LUT metadata is gone, so its
content differs from the raw file — the operation does not perform zero
file writes and no "no rotation needed" short-circuit exists in
`apply_rotation.main` (the source writes the file unconditionally). -/
theorem claim_C6_counterexample :
    (apply_rotation_main c6World "img" [(Axis.x, 0), (Axis.y, 0), (Axis.z, 0)]
        false).2 = none ∧
    (dictGet (apply_rotation_main c6World "img"
        [(Axis.x, 0), (Axis.y, 0), (Axis.z, 0)] false).1.images "img.tif").map
        TiffContent.stack = some (.threeD c6Vol) ∧
    (dictGet (apply_rotation_main c6World "img"
        [(Axis.x, 0), (Axis.y, 0), (Axis.z, 0)] false).1.images "img.tif").map
        TiffContent.hasLUTs = some false ∧
    c6Tiff.hasLUTs = true ∧
    dictGet (apply_rotation_main c6World "img"
        [(Axis.x, 0), (Axis.y, 0), (Axis.z, 0)] false).1.images "img.tif" ≠
      some c6Tiff := by
  refine ⟨by decide, by decide, by decide, rfl, ?_⟩
  intro h
  have h2 := congrArg (Option.map TiffContent.hasLUTs) h
  rw [show (dictGet (apply_rotation_main c6World "img"
      [(Axis.x, 0), (Axis.y, 0), (Axis.z, 0)] false).1.images "img.tif").map
      TiffContent.hasLUTs = some false from by decide] at h2
  simp [c6Tiff] at h2

/-- C6 as amended: an all-zero request is accepted without error and the
rotation itself is a no-op on the array content, but `apply_rotation.main`
still rewrites the volume file (re-encoding it without its LUT metadata)
instead of skipping the write, and nothing reports that no rotation is
needed. -/
theorem claim_C6_amended_all_zero (w : World) (img : String) (c : TiffContent)
    (req : List (Axis × Int)) (o2 : Option Store)
    (hfind : dictGet w.images (img ++ ".tif") = some c)
    (hzero : ∀ ad ∈ req, ad.2 = 0)
    (hupd : update_voxel_sizes_after_rotation w.orientations img req = .ok o2) :
    (apply_rotation_main w img req false).2 = none ∧
    ∃ c1,
      dictGet (apply_rotation_main w img req false).1.images (img ++ ".tif") =
          some c1 ∧
        c1 = writtenTiff c c.stack ∧ c1.stack = c.stack ∧ c1.hasLUTs = false := by
  have hok := apply_rotation_main_ok w img c req c.stack o2 hfind
    (rotateStack_zero c.stack req hzero) hupd
  refine ⟨by rw [hok], writtenTiff c c.stack, ?_, rfl, rfl, rfl⟩
  rw [hok]
  exact dictGet_set_self _ _ _

/-- Witness for the amended C6: the all-zero request on the concrete world
succeeds and the file is rewritten with the unchanged array. -/
theorem claim_C6_amended_all_zero_witness :
    (apply_rotation_main c6World "img" [(Axis.x, 0), (Axis.y, 0), (Axis.z, 0)]
        false).2 = none ∧
    ∃ c1,
      dictGet (apply_rotation_main c6World "img"
          [(Axis.x, 0), (Axis.y, 0), (Axis.z, 0)] false).1.images "img.tif" =
          some c1 ∧
        c1 = writtenTiff c6Tiff c6Tiff.stack ∧ c1.stack = c6Tiff.stack ∧
        c1.hasLUTs = false :=
  claim_C6_amended_all_zero c6World "img" c6Tiff
    [(Axis.x, 0), (Axis.y, 0), (Axis.z, 0)] none rfl (by decide) rfl

/-! ## Claim C2 — the raw stack is rewritten by apply_rotation.main -/

/-- C2, evaluated at the failing input: rotating `img` by `{x: 90}` via
`apply_rotation.main` succeeds and replaces the raw TIFF under
`Images/img.tif` — its array content afterwards is the rotated volume, not
the acquired stack, contradicting the claim (and the repository's own
documentation in `reset_rotation.py` and `convert_tiff_to_nrrd.py` that the
original TIFF is never modified). -/
theorem claim_C2_raw_stack_rewritten :
    (apply_rotation_main c2World "img" [(Axis.x, 90)] false).2 = none ∧
    (dictGet (apply_rotation_main c2World "img" [(Axis.x, 90)] false).1.images
        "img.tif").map TiffContent.stack =
      some (.threeD ⟨2, 2, 2, [3, 4, 7, 8, 1, 2, 5, 6]⟩) ∧
    c2Tiff.stack = .threeD ⟨2, 2, 2, [1, 2, 3, 4, 5, 6, 7, 8]⟩ ∧
    (dictGet (apply_rotation_main c2World "img" [(Axis.x, 90)] false).1.images
        "img.tif").map TiffContent.stack ≠ some c2Tiff.stack := by
  refine ⟨by decide, by decide, rfl, by decide⟩

/-! ## Claim C9 — the Y-axis asymmetry heuristic -/

/-- The peak-ratio loop only emits peak findings, never the Y-flip
finding. -/
theorem yAxisFlip_not_peakChanges (sp tp : PeakCounts) :
    Finding.yAxisFlip ∉ peakChanges sp tp := by
  unfold peakChanges
  generalize (List.range 3) = l
  suffices hgen : ∀ (l : List Nat) (acc : List Finding), Finding.yAxisFlip ∉ acc →
      Finding.yAxisFlip ∉ l.foldl
        (fun acc axis =>
          let s := sp.axisGet axis
          let t := tp.axisGet axis
          if 0 < t then
            if (2 : ℚ) < (s : ℚ) / (t : ℚ) then acc ++ [.tooManyPeaks axis s t]
            else if (s : ℚ) / (t : ℚ) < 3 / 10 then acc ++ [.tooFewPeaks axis s t]
            else acc
          else acc)
        acc by
    exact hgen l [] (by simp)
  intro l
  induction l with
  | nil => intro acc h; exact h
  | cons i t ih =>
    intro acc h
    rw [List.foldl_cons]
    apply ih
    dsimp only
    split
    · split
      · simp [List.mem_append, h]
      · split
        · simp [List.mem_append, h]
        · exact h
    · exact h

/-- C9 counterexample: for a sample compared against the VNC template the
Y-asymmetry block is skipped entirely — the midpoint split is as asymmetric
as possible (front 0, back 10, ratio −1 < −0.15), yet no Y-flip finding is
produced and the suggested rotation's y stays 0, refuting the claim's
"for every sample". -/
theorem claim_C9_counterexample :
    halfSums [0, 10] = (0, 10) ∧
    ((0 : ℚ) - 10) / ((0 : ℚ) + 10) < -(3 / 20) ∧
    Finding.yAxisFlip ∉
      (check_orientation (T := Unit) (fun _ => ⟨⟨0, 0, 0⟩, []⟩) (fun _ _ => false)
        ⟨0, 0, 0⟩ ⟨[], [0, 10], []⟩ "JRCVNC2018U_template" (some ())).2.1 ∧
    (check_orientation (T := Unit) (fun _ => ⟨⟨0, 0, 0⟩, []⟩) (fun _ _ => false)
        ⟨0, 0, 0⟩ ⟨[], [0, 10], []⟩ "JRCVNC2018U_template" (some ())).2.2.y = 0 := by
  refine ⟨by decide, by norm_num, by decide, by decide⟩

/-- C9 as amended: whenever the selected template key names a JRC2018U
brain template and the template is loaded, the comparison adds the Y-flip
finding exactly when the filtered Y profile split at its midpoint satisfies
`(front − back) / (front + back) < −0.15` with a positive total, and the
suggested rotation's y component is 180 exactly when that finding is
present; for any other template key the finding is never produced and y
stays 0. -/
theorem claim_C9_amended_y_asymmetry {T : Type}
    (analyze : T → TemplateAnalysis) (zFlipTest : List Int → List Int → Bool)
    (sample_peaks : PeakCounts) (sample_proj : ProfileSet)
    (template_key : String) (tinfo : T) :
    (pyStartswith template_key "JRC2018U" = true →
      (Finding.yAxisFlip ∈
          (check_orientation analyze zFlipTest sample_peaks sample_proj
            template_key (some tinfo)).2.1 ↔
        (0 < (halfSums sample_proj.y).1 + (halfSums sample_proj.y).2 ∧
          (((halfSums sample_proj.y).1 : ℚ) - ((halfSums sample_proj.y).2 : ℚ)) /
              (((halfSums sample_proj.y).1 + (halfSums sample_proj.y).2 : ℤ) : ℚ) <
            -(3 / 20)))) ∧
    (pyStartswith template_key "JRC2018U" = false →
      Finding.yAxisFlip ∉
        (check_orientation analyze zFlipTest sample_peaks sample_proj
          template_key (some tinfo)).2.1) ∧
    ((check_orientation analyze zFlipTest sample_peaks sample_proj
        template_key (some tinfo)).2.2.y = 180 ↔
      Finding.yAxisFlip ∈
        (check_orientation analyze zFlipTest sample_peaks sample_proj
          template_key (some tinfo)).2.1) := by
  have hC0 := yAxisFlip_not_peakChanges sample_peaks (analyze tinfo).peaks
  refine ⟨?_, ?_, ?_⟩
  · intro hs
    unfold check_orientation
    dsimp only
    split_ifs <;> simp_all
  · intro hs
    unfold check_orientation
    dsimp only
    split_ifs <;> simp_all
  · unfold check_orientation
    dsimp only
    split_ifs <;> simp_all

/-- Witness for the amended C9: against a JRC2018U brain template, the
maximally back-heavy Y profile `[0, 10]` produces the Y-flip finding and a
suggested y rotation of 180. -/
theorem claim_C9_amended_y_asymmetry_witness :
    Finding.yAxisFlip ∈
        (check_orientation (T := Unit) (fun _ => ⟨⟨0, 0, 0⟩, []⟩)
          (fun _ _ => false) ⟨0, 0, 0⟩ ⟨[], [0, 10], []⟩
          "JRC2018U_template_lps" (some ())).2.1 ∧
      (check_orientation (T := Unit) (fun _ => ⟨⟨0, 0, 0⟩, []⟩)
          (fun _ _ => false) ⟨0, 0, 0⟩ ⟨[], [0, 10], []⟩
          "JRC2018U_template_lps" (some ())).2.2.y = 180 := by
  have h := claim_C9_amended_y_asymmetry (T := Unit) (fun _ => ⟨⟨0, 0, 0⟩, []⟩)
    (fun _ _ => false) ⟨0, 0, 0⟩ ⟨[], [0, 10], []⟩ "JRC2018U_template_lps" ()
  have hmem := (h.1 (by decide)).mpr
    ⟨by decide, by norm_num [show halfSums [0, 10] = (0, 10) from by decide]⟩
  exact ⟨hmem, (h.2.2).mpr hmem⟩

/-- Witness for the amended C7: a stored default triple is overwritten by
the caller's measured triple, and a stored measured triple survives a save
that carries the default triple. -/
theorem claim_C7_amended_default_guard_witness :
    storedVoxelSizes
        [("img",
            [("image_info", .obj [("voxel_sizes", JFlat.qlist [1, 1, 2])]),
              ("automated_analysis", .obj [])])]
        "img" = some (JFlat.qlist [1, 1, 2]) ∧
      storedVoxelSizes
          [("img",
              [("image_info", .obj [("voxel_sizes", JFlat.qlist [1, 1, 2])]),
                ("automated_analysis", .leaf .jnull)])]
          "img" = some (JFlat.qlist [1, 1, 2]) := by
  constructor
  · have h := claim_C7_amended_default_guard c7DefaultStore "img"
      [("voxel_sizes", JFlat.qlist [1, 1, 2])] (.obj [])
      [("img",
          [("image_info", .obj [("voxel_sizes", JFlat.qlist [1, 1, 2])]),
            ("automated_analysis", .obj [])])] (by decide)
    rw [h.1 (Or.inr (Or.inl (by decide)))]
    decide
  · have h := claim_C7_amended_default_guard c7MeasuredStore "img"
      [("voxel_sizes", defaultVoxelTriple)] (.leaf .jnull)
      [("img",
          [("image_info", .obj [("voxel_sizes", JFlat.qlist [1, 1, 2])]),
            ("automated_analysis", .leaf .jnull)])] (by decide)
    exact h.2 (JFlat.qlist [1, 1, 2]) (by decide) (by decide) (by decide)

end FlyBrain
